import Mathlib

/-!
Verification of `btowntickets` (src/btowntickets/utils.py): a shallow
embedding of the two loaders (`CSVLoader`, `ParquetLoader`), the
`LoadProcess` orchestrator and the `profile_nulls` helper, followed by
theorems settling the spec's claims about them.

Tables are modelled as ordered lists of named, typed columns; cells are
tagged values with an explicit null.  Floating-point cell values are
modelled by exact rationals (no claim depends on rounding); the one place
where IEEE behaviour is observable — the null-percentage division by a
zero row count — is modelled explicitly by `divModel`, which returns a
NaN sentinel for 0/0.
-/

namespace BtownTickets

/-- A column dtype, as pandas sees it after loading:
`float64` models the nullable `Float64` extension dtype, `int64` the
nullable `Int64` extension dtype, `text` plain strings (`str`),
`category` categorical text, `datetime` a parsed date/time column. -/
inductive Dtype where
  | float64
  | int64
  | text
  | category
  | datetime
  deriving DecidableEq, Repr

/-- An exact decimal number `num / 10 ^ exp`, kept canonical (trailing
zero factors stripped, see `normDec`), standing for the 64-bit float a
numeric CSV cell parses to.  Every decimal literal a CSV can hold is
represented exactly; no claim observes IEEE rounding. -/
structure Dec where
  num : ℤ
  exp : Nat
  deriving DecidableEq, Repr

/-- Canonicalise `n / 10 ^ e` by stripping factors of ten, so that two
`Dec`s denote the same number exactly when they are equal. -/
def normDec (n : ℤ) : Nat → Dec
  | 0 => ⟨n, 0⟩
  | e + 1 => if n % 10 = 0 then normDec (n / 10) e else ⟨n, e + 1⟩

/-- The rational a `Dec` denotes. -/
def Dec.toRat (d : Dec) : ℚ :=
  (d.num : ℚ) / (10 : ℚ) ^ d.exp

/-- A cell value.  `null` models `pd.NA`/`NaN`/`NaT`; `float` carries an
exact decimal standing for the 64-bit float; `date` carries the parsed
date/time (represented by its canonical source text — no claim inspects
the internals of a date). -/
inductive Value where
  | null
  | float (d : Dec)
  | int (n : ℤ)
  | str (s : String)
  | date (s : String)
  deriving DecidableEq, Repr

/-- `pd.isna` on a single cell. -/
def Value.isna : Value → Bool
  | .null => true
  | _ => false

/-- One named, typed column of a DataFrame. -/
structure Column where
  name : String
  dtype : Dtype
  cells : List Value
  deriving DecidableEq, Repr

/-- An in-memory table (pandas `DataFrame`): ordered columns plus the
row count of the index (`len(df)`). -/
structure Table where
  cols : List Column
  nrows : Nat
  deriving DecidableEq, Repr

/-- Well-formedness: every column holds exactly `nrows` cells (intrinsic
to a real DataFrame, explicit here). -/
def Table.wf (t : Table) : Prop :=
  ∀ c ∈ t.cols, c.cells.length = t.nrows

instance (t : Table) : Decidable t.wf := by
  unfold Table.wf; infer_instance

/-- `df[col].isna().sum()`: the number of null cells of a column. -/
def countNulls (c : Column) : Nat :=
  c.cells.countP Value.isna

/-- A 64-bit float produced by dividing an integer count by `len(df)`:
either a finite value, `+inf` (positive / zero) or `nan` (0 / 0). -/
inductive PFloat where
  | nan
  | inf
  | val (q : ℚ)
  deriving DecidableEq, Repr

/-- Integer-by-integer float division as pandas performs it in
`null_profile["Null Count"] / len(df)`. -/
def divModel (a b : Nat) : PFloat :=
  if b = 0 then (if a = 0 then .nan else .inf)
  else .val ((a : ℚ) / (b : ℚ))

/-- One row of the null-profile report: columns
`Column`, `Null Count`, `Null Pct`. -/
structure ProfileRow where
  column : String
  nullCount : Nat
  nullPct : PFloat
  deriving DecidableEq, Repr

/-- `profile_nulls(df)`: `df.isna().sum(axis=0)` indexed by column name,
turned into one report row per column (in column order) and extended
with `Null Pct = Null Count / len(df)`. -/
def profile_nulls (df : Table) : List ProfileRow :=
  df.cols.map (fun c =>
    { column := c.name
      nullCount := countNulls c
      nullPct := divModel (countNulls c) df.nrows })

/-- The call `profile_nulls(df)` with the caller's dataframe threaded as
explicit state: the source only reads `df` (`df.isna()`, `len(df)`) and
writes the freshly allocated `null_profile` frame, so the state
component returned to the caller is `df` itself. -/
def profile_nulls_call (df : Table) : Table × List ProfileRow :=
  (df, profile_nulls df)

/-! ### The delimited-text (CSV) loader -/

/-- A delimited-text file, already split into its header row and data
rows of raw cell text. -/
structure Csv where
  header : List String
  rows : List (List String)
  deriving DecidableEq, Repr

/-- The `dtype=` mapping passed to `pd.read_csv`, in insertion order. -/
def dtypes : List (String × Dtype) :=
  [("X", .float64), ("Y", .float64), ("OBJECTID", .int64),
   ("ADDRESS", .text), ("LICSTATEPROV", .category),
   ("VIODESCRIPTION", .category), ("VIOFINE", .float64),
   ("VOIDSTATUS", .category)]

/-- `parse_dates=['ISSUEDATE', 'ISSUETIME']`. -/
def datetime_cols : List String := ["ISSUEDATE", "ISSUETIME"]

/-- `usecols=list(dtypes.keys()) + datetime_cols`. -/
def usecols : List String := dtypes.map Prod.fst ++ datetime_cols

/-- The dtype the loaded column of a given name receives: the entry of
the `dtype=` mapping, or `datetime` for the two `parse_dates` columns. -/
def csvDtype (n : String) : Dtype :=
  match (dtypes.find? (fun p => p.1 = n)) with
  | some p => p.2
  | none => .datetime

/-- pandas' default `na_values` tokens: a raw cell equal to one of these
is read as missing (null), whatever the column's dtype. -/
def defaultNaValues : List String :=
  ["", "#N/A", "#N/A N/A", "#NA", "-1.#IND", "-1.#QNAN", "-NaN",
   "-nan", "1.#IND", "1.#QNAN", "<NA>", "N/A", "NA", "NULL", "NaN",
   "None", "n/a", "nan", "null"]

/-- Parse an unsigned decimal digit string. -/
def parseDigits : List Char → Option Nat
  | [] => none
  | cs =>
    if cs.all Char.isDigit then
      some (cs.foldl (fun acc c => acc * 10 + (c.toNat - '0'.toNat)) 0)
    else none

/-- Parse a signed decimal integer literal. -/
def parseInt? (s : String) : Option Int :=
  match s.toList with
  | '-' :: cs => (parseDigits cs).map (fun n => -(n : Int))
  | '+' :: cs => (parseDigits cs).map (fun n => (n : Int))
  | cs => (parseDigits cs).map (fun n => (n : Int))

/-- Parse an unsigned decimal literal with an optional fractional part
(`10`, `10.0`, `.5`) as an exact decimal. -/
def parseUFloat? (cs : List Char) : Option Dec :=
  match cs.splitOn '.' with
  | [whole] => (parseDigits whole).map (fun n => normDec (n : ℤ) 0)
  | [whole, frac] =>
    if whole.isEmpty ∧ frac.isEmpty then none
    else if (whole.all Char.isDigit) ∧ (frac.all Char.isDigit) then
      some (normDec ((parseDigits (whole ++ frac)).getD 0 : ℤ)
        frac.length)
    else none
  | _ => none

/-- Parse a signed decimal float literal as an exact decimal. -/
def parseFloat? (s : String) : Option Dec :=
  match s.toList with
  | '-' :: cs => (parseUFloat? cs).map (fun d => ⟨-d.num, d.exp⟩)
  | '+' :: cs => parseUFloat? cs
  | cs => parseUFloat? cs

/-- Convert one raw cell to its typed value, as `pd.read_csv` does under
the given `dtype=` entry: a default-NA token becomes null for every
dtype; otherwise `Float64`/`Int64` columns require a numeric literal and
raise a `ValueError` on anything else; `str` and `category` keep the
text; a `parse_dates` column stores the parsed date/time. -/
def coerceCell (dt : Dtype) (s : String) : Except String Value :=
  if s ∈ defaultNaValues then .ok .null
  else match dt with
  | .float64 =>
    match parseFloat? s with
    | some q => .ok (.float q)
    | none => .error ("Unable to parse string " ++ s)
  | .int64 =>
    match parseInt? s with
    | some n => .ok (.int n)
    | none => .error ("Unable to parse string " ++ s)
  | .text => .ok (.str s)
  | .category => .ok (.str s)
  | .datetime => .ok (.date s)

/-- The raw cells of the column at header position `j` (a row shorter
than the header reads as missing cells). -/
def rawColumn (csv : Csv) (j : Nat) : List String :=
  csv.rows.map (fun r => r.getD j "")

/-- Effectful map over a list in `Except`: the first failing element
aborts the whole computation (as a pandas parse `ValueError` aborts the
whole `read_csv`). -/
def mapE {α β : Type} (f : α → Except String β) : List α → Except String (List β)
  | [] => .ok []
  | a :: t =>
    match f a with
    | .error e => .error e
    | .ok b =>
      match mapE f t with
      | .error e => .error e
      | .ok bs => .ok (b :: bs)

/-- `CSVLoader.load`: `pd.read_csv(path, parse_dates=datetime_cols,
dtype=dtypes, usecols=list(dtypes.keys()) + datetime_cols)`.  Fails with
a usecols `ValueError` when a requested column is absent from the
header; otherwise keeps exactly the requested columns, in file order,
coercing every cell per its dtype (any coercion failure aborts the
load). -/
def CSVLoader.load (csv : Csv) : Except String Table :=
  if ∀ c ∈ usecols, c ∈ csv.header then
    match mapE (fun p =>
        match mapE (coerceCell (csvDtype p.2)) (rawColumn csv p.1) with
        | .error e => .error e
        | .ok cells => .ok (⟨p.2, csvDtype p.2, cells⟩ : Column))
      (csv.header.enum.filter (fun p => usecols.contains p.2)) with
    | .error e => .error e
    | .ok cols => .ok { cols := cols, nrows := csv.rows.length }
  else .error "Usecols do not match columns, columns expected but not found"

instance {ε α : Type} [DecidableEq ε] [DecidableEq α] :
    DecidableEq (Except ε α)
  | .error e, .error f => decidable_of_iff (e = f) (by simp)
  | .error _, .ok _ => isFalse (by simp)
  | .ok _, .error _ => isFalse (by simp)
  | .ok a, .ok b => decidable_of_iff (a = b) (by simp)

/-- True when an `Except` is an error. -/
def isErr : Except String Table → Bool
  | .error _ => true
  | .ok _ => false

/-- The columns of a successfully loaded table (`[]` on error). -/
def loadedCols : Except String Table → List Column
  | .ok t => t.cols
  | .error _ => []

/-- Find the loaded column of a given name. -/
def getCol (e : Except String Table) (n : String) : Option Column :=
  (loadedCols e).find? (fun c => c.name = n)

/-! ### The columnar-binary (Parquet) loader -/

/-- A readable columnar-binary (Parquet) file, by its logical content:
the embedded schema (column names and types, in order), one chunk of
decoded values per schema entry, and the stored row count. -/
structure ParquetFile where
  schema : List (String × Dtype)
  columnData : List (List Value)
  numRows : Nat
  deriving DecidableEq, Repr

/-- `ParquetLoader.load`: `pd.read_parquet(path, engine="pyarrow")` —
every stored column becomes a table column with its embedded name, type
and values; nothing is filtered or coerced. -/
def ParquetLoader.load (f : ParquetFile) : Table :=
  { cols := (f.schema.zip f.columnData).map
      (fun p => ⟨p.1.1, p.1.2, p.2⟩)
    nrows := f.numRows }

/-! ### The orchestrator -/

/-- A concrete loader instance: one of the two `Loader` subclasses,
holding the (content of the) file path it was constructed with. -/
inductive LoaderInst where
  | csv (file : Csv)
  | parquet (file : ParquetFile)
  deriving DecidableEq, Repr

/-- Polymorphic dispatch of `loader.load()` over the two concrete
`Loader` subclasses. -/
def LoaderInst.load : LoaderInst → Except String Table
  | .csv f => CSVLoader.load f
  | .parquet f => .ok (ParquetLoader.load f)

/-- `LoadProcess`: holds the loader chosen at construction time. -/
structure LoadProcess where
  data_loader : LoaderInst
  deriving DecidableEq, Repr

/-- `LoadProcess.run`: `return self.data_loader.load()`. -/
def LoadProcess.run (p : LoadProcess) : Except String Table :=
  p.data_loader.load

/-! ### Concrete inputs used by scenarios, witnesses and counterexamples -/

/-- A valid delimited-text file: all ten required columns plus an extra
column `EXTRA`, one data row. -/
def sampleCsv : Csv :=
  { header := ["EXTRA", "X", "Y", "OBJECTID", "ADDRESS", "LICSTATEPROV",
               "VIODESCRIPTION", "VIOFINE", "VOIDSTATUS", "ISSUEDATE",
               "ISSUETIME"]
    rows := [["zz", "1.5", "2.5", "7", "1 Main St", "ON", "PARKING",
              "30.0", "N", "2020-01-01", "12:30"]] }

/-- The table `CSVLoader.load` produces from `sampleCsv`. -/
def sampleLoaded : Table :=
  { cols :=
      [⟨"X", .float64, [.float ⟨15, 1⟩]⟩,
       ⟨"Y", .float64, [.float ⟨25, 1⟩]⟩,
       ⟨"OBJECTID", .int64, [.int 7]⟩,
       ⟨"ADDRESS", .text, [.str "1 Main St"]⟩,
       ⟨"LICSTATEPROV", .category, [.str "ON"]⟩,
       ⟨"VIODESCRIPTION", .category, [.str "PARKING"]⟩,
       ⟨"VIOFINE", .float64, [.float ⟨30, 0⟩]⟩,
       ⟨"VOIDSTATUS", .category, [.str "N"]⟩,
       ⟨"ISSUEDATE", .datetime, [.date "2020-01-01"]⟩,
       ⟨"ISSUETIME", .datetime, [.date "12:30"]⟩]
    nrows := 1 }

/-- `sampleCsv` with the non-numeric cell `"abc"` in the nullable
numeric column `VIOFINE`. -/
def badViofineCsv : Csv :=
  { header := sampleCsv.header
    rows := [["zz", "1.5", "2.5", "7", "1 Main St", "ON", "PARKING",
              "abc", "N", "2020-01-01", "12:30"]] }

/-- Scenario A: a three-row file whose `VIOFINE` column is
`[10.0, "", 20.0]`. -/
def scenarioACsv : Csv :=
  { header := ["X", "Y", "OBJECTID", "ADDRESS", "LICSTATEPROV",
               "VIODESCRIPTION", "VIOFINE", "VOIDSTATUS", "ISSUEDATE",
               "ISSUETIME"]
    rows :=
      [["1", "1", "1", "a", "ON", "P", "10.0", "N", "2020-01-01", "01:00"],
       ["2", "2", "2", "b", "ON", "P", "", "N", "2020-01-02", "02:00"],
       ["3", "3", "3", "c", "ON", "P", "20.0", "N", "2020-01-03", "03:00"]] }

/-- Scenario B: a file whose header lacks `OBJECTID`. -/
def missingObjectidCsv : Csv :=
  { header := ["X", "Y", "ADDRESS", "LICSTATEPROV", "VIODESCRIPTION",
               "VIOFINE", "VOIDSTATUS", "ISSUEDATE", "ISSUETIME"]
    rows := [["1", "1", "a", "ON", "P", "10.0", "N", "2020-01-01", "01:00"]] }

/-- Scenario D: an empty table with 0 rows and 2 columns. -/
def emptyTable2 : Table :=
  { cols := [⟨"A", .float64, []⟩, ⟨"B", .text, []⟩], nrows := 0 }

/-- A small two-column table with nulls, for witnesses. -/
def smallTable : Table :=
  { cols := [⟨"A", .float64, [.float ⟨1, 0⟩, .null]⟩,
             ⟨"B", .text, [.null, .null]⟩]
    nrows := 2 }

/-- Scenario C: a columnar-binary file with embedded schema
`{A: integer, B: text}`. -/
def sampleParquet : ParquetFile :=
  { schema := [("A", .int64), ("B", .text)]
    columnData := [[.int 1, .int 2], [.str "x", .null]]
    numRows := 2 }

/-- A one-column table. -/
def maskTableA : Table :=
  { cols := [⟨"A", .float64, [.float ⟨1, 0⟩, .null, .float ⟨2, 0⟩]⟩], nrows := 3 }

/-- `maskTableA` with different non-null values but the same nullness
pattern. -/
def maskTableB : Table :=
  { cols := [⟨"A", .float64, [.float ⟨99, 0⟩, .null, .float ⟨0, 0⟩]⟩], nrows := 3 }

/-! ### Helper lemmas -/

theorem mapE_ok_iff {α β : Type} (f : α → Except String β) :
    ∀ (l : List α) (ys : List β),
      mapE f l = .ok ys ↔ List.Forall₂ (fun a b => f a = .ok b) l ys := by
  intro l
  induction l with
  | nil => intro ys; cases ys <;> simp [mapE]
  | cons a t ih =>
    intro ys
    cases hfa : f a with
    | error e =>
      simp only [mapE, hfa]
      constructor
      · intro h; exact absurd h (by simp)
      · intro h
        cases h with
        | cons hab _ => rw [hfa] at hab; exact absurd hab (by simp)
    | ok b =>
      cases hmt : mapE f t with
      | error e =>
        simp only [mapE, hfa, hmt]
        constructor
        · intro h; exact absurd h (by simp)
        · intro h
          cases h with
          | cons _ hrest =>
            have := (ih _).mpr hrest
            rw [hmt] at this
            exact absurd this (by simp)
      | ok bs =>
        simp only [mapE, hfa, hmt]
        cases ys with
        | nil => simp
        | cons y yt =>
          rw [List.forall₂_cons, ← ih yt, hmt, hfa]
          simp [eq_comm, and_comm]

theorem forall2_map_eq {α β γ : Type} {R : α → β → Prop} {f : α → γ}
    {g : β → γ} {l : List α} {l' : List β} (h : List.Forall₂ R l l')
    (hR : ∀ a b, R a b → f a = g b) : l.map f = l'.map g := by
  induction h with
  | nil => rfl
  | cons hab _ ih => simp only [List.map_cons, hR _ _ hab, ih]

theorem forall2_mem_right {α β : Type} {R : α → β → Prop} {l : List α}
    {l' : List β} (h : List.Forall₂ R l l') {b : β} (hb : b ∈ l') :
    ∃ a ∈ l, R a b := by
  induction h with
  | nil => cases hb
  | cons hab _ ih =>
    rcases List.mem_cons.mp hb with rfl | hb2
    · exact ⟨_, List.mem_cons_self _ _, hab⟩
    · obtain ⟨a, ha, hRa⟩ := ih hb2
      exact ⟨a, List.mem_cons_of_mem _ ha, hRa⟩

theorem enumFrom_filter_map_snd {α : Type} (q : α → Bool) (n : Nat)
    (l : List α) :
    ((List.enumFrom n l).filter (fun p => q p.2)).map Prod.snd
      = l.filter q := by
  induction l generalizing n with
  | nil => rfl
  | cons a t ih =>
    simp only [List.enumFrom_cons, List.filter_cons]
    cases hq : q a <;> simp [hq, ih]

theorem countNulls_congr {c₁ c₂ : Column}
    (h : c₁.cells.map Value.isna = c₂.cells.map Value.isna) :
    countNulls c₁ = countNulls c₂ := by
  unfold countNulls
  have h1 : (c₁.cells.map Value.isna).countP (fun b => b)
      = (c₂.cells.map Value.isna).countP (fun b => b) := by rw [h]
  rwa [List.countP_map, List.countP_map] at h1

theorem cellMatch_ok {csv : Csv} {p : Nat × String} {c : Column}
    (h : (match mapE (coerceCell (csvDtype p.2)) (rawColumn csv p.1) with
      | .error e => .error e
      | .ok cells =>
          .ok (⟨p.2, csvDtype p.2, cells⟩ : Column)) = Except.ok c) :
    c.name = p.2 ∧ c.dtype = csvDtype p.2 ∧
      mapE (coerceCell (csvDtype p.2)) (rawColumn csv p.1)
        = .ok c.cells := by
  cases hE : mapE (coerceCell (csvDtype p.2)) (rawColumn csv p.1) with
  | error e => rw [hE] at h; exact absurd h (by simp)
  | ok cells =>
    rw [hE] at h
    have hc : c = ⟨p.2, csvDtype p.2, cells⟩ := by
      cases h; rfl
    subst hc
    exact ⟨rfl, rfl, rfl⟩

theorem load_ok_struct {csv : Csv} {t : Table}
    (h : CSVLoader.load csv = .ok t) :
    (∀ c ∈ usecols, c ∈ csv.header) ∧
    List.Forall₂
      (fun (p : Nat × String) (c : Column) =>
        c.name = p.2 ∧ c.dtype = csvDtype p.2 ∧
        mapE (coerceCell (csvDtype p.2)) (rawColumn csv p.1)
          = .ok c.cells)
      (csv.header.enum.filter (fun p => usecols.contains p.2)) t.cols ∧
    t.nrows = csv.rows.length := by
  unfold CSVLoader.load at h
  by_cases hall : ∀ c ∈ usecols, c ∈ csv.header
  · rw [if_pos hall] at h
    refine ⟨hall, ?_⟩
    cases hE : mapE (fun p =>
        match mapE (coerceCell (csvDtype p.2)) (rawColumn csv p.1) with
        | .error e => .error e
        | .ok cells => .ok (⟨p.2, csvDtype p.2, cells⟩ : Column))
        (csv.header.enum.filter (fun p => usecols.contains p.2)) with
    | error e => rw [hE] at h; exact absurd h (by simp)
    | ok cols =>
      rw [hE] at h
      have ht : t = { cols := cols, nrows := csv.rows.length } := by
        cases h; rfl
      subst ht
      have hF := (mapE_ok_iff _ _ _).mp hE
      exact ⟨hF.imp (fun p c hpc => cellMatch_ok hpc), rfl⟩
  · rw [if_neg hall] at h
    exact absurd h (by simp)

/-! ### The claims -/

/-- C1 (counterexample): on a valid file with all required columns,
`CSVLoader.load` succeeds and produces a table whose non-date/time data
columns number eight, not nine as the claim counts them (the total is
ten: eight data columns plus the two date/time columns). -/
theorem claim_C1_counterexample :
    isErr (CSVLoader.load sampleCsv) = false ∧
    (loadedCols (CSVLoader.load sampleCsv)).length = 10 ∧
    ((loadedCols (CSVLoader.load sampleCsv)).filter
      (fun c => !(c.dtype == Dtype.datetime))).length = 8 ∧
    ¬ ((loadedCols (CSVLoader.load sampleCsv)).filter
      (fun c => !(c.dtype == Dtype.datetime))).length = 9 := by
  decide

/-- C1 (amended): whenever `CSVLoader.load` returns a table, that table
has exactly the eight §3 data columns plus the two date/time columns
`ISSUEDATE` and `ISSUETIME` — in file order, every other file column
ignored — and each column's dtype matches §3 (`X`, `Y`, `VIOFINE`
nullable float; `OBJECTID` nullable integer; `ADDRESS` text;
`LICSTATEPROV`, `VIODESCRIPTION`, `VOIDSTATUS` categorical; the two
date/time columns each parsed to the date/time type). -/
theorem claim_C1 (csv : Csv) (t : Table)
    (hload : CSVLoader.load csv = .ok t) :
    t.cols.map Column.name
      = csv.header.filter (fun n => usecols.contains n) ∧
    (∀ n, n ∈ t.cols.map Column.name ↔ n ∈ usecols) ∧
    (csv.header.Nodup → (t.cols.map Column.name).Nodup) ∧
    (∀ c ∈ t.cols,
      ((c.name = "X" ∨ c.name = "Y" ∨ c.name = "VIOFINE") →
        c.dtype = Dtype.float64) ∧
      (c.name = "OBJECTID" → c.dtype = Dtype.int64) ∧
      (c.name = "ADDRESS" → c.dtype = Dtype.text) ∧
      ((c.name = "LICSTATEPROV" ∨ c.name = "VIODESCRIPTION" ∨
        c.name = "VOIDSTATUS") → c.dtype = Dtype.category) ∧
      ((c.name = "ISSUEDATE" ∨ c.name = "ISSUETIME") →
        c.dtype = Dtype.datetime)) := by
  obtain ⟨hall, hF, _⟩ := load_ok_struct hload
  have hnames : t.cols.map Column.name
      = csv.header.filter (fun n => usecols.contains n) := by
    have h1 : (csv.header.enum.filter
          (fun p => usecols.contains p.2)).map Prod.snd
        = t.cols.map Column.name :=
      forall2_map_eq hF (fun p c hpc => hpc.1.symm)
    rw [← h1]
    exact enumFrom_filter_map_snd (fun n => usecols.contains n) 0 csv.header
  refine ⟨hnames, ?_, ?_, ?_⟩
  · intro n
    constructor
    · intro hn
      rw [hnames] at hn
      have := List.of_mem_filter hn
      simpa using this
    · intro hn
      rw [hnames]
      refine List.mem_filter.mpr ⟨hall n hn, ?_⟩
      simpa using hn
  · intro hdr
    rw [hnames]
    exact hdr.filter _
  · intro c hc
    obtain ⟨p, _, hname, hdt, _⟩ := forall2_mem_right hF hc
    have hdt2 : c.dtype = csvDtype c.name := by rw [hname, hdt]
    refine ⟨?_, ?_, ?_, ?_, ?_⟩
    · rintro (h | h | h) <;> rw [hdt2, h] <;> decide
    · intro h; rw [hdt2, h]; decide
    · intro h; rw [hdt2, h]; decide
    · rintro (h | h | h) <;> rw [hdt2, h] <;> decide
    · rintro (h | h) <;> rw [hdt2, h] <;> decide

/-- C1 (witness): the amended claim holds on the concrete file
`sampleCsv`, which loads successfully as `sampleLoaded`. -/
theorem claim_C1_witness :
    CSVLoader.load sampleCsv = .ok sampleLoaded ∧
    sampleLoaded.cols.map Column.name
      = sampleCsv.header.filter (fun n => usecols.contains n) :=
  ⟨by decide, (claim_C1 sampleCsv sampleLoaded (by decide)).1⟩

/-- C2 (counterexample): a non-empty, non-numeric cell (`"abc"`) in the
nullable numeric column `VIOFINE` makes `CSVLoader.load` fail with a
parse error, instead of storing a null as the claim states. -/
theorem claim_C2_counterexample :
    isErr (CSVLoader.load badViofineCsv) = true := by decide

/-- C2 (amended): an empty cell (or any default missing-data token) of
a nullable numeric column is stored as a null; in particular, for
scenario A's file (3 rows, `VIOFINE = [10.0, "", 20.0]`) the loaded
`VIOFINE` column is `[10.0, null, 20.0]`.  (A non-empty cell that is
not numeric instead aborts the load with a parse error.) -/
theorem claim_C2 (dt : Dtype)
    (_hdt : dt = Dtype.float64 ∨ dt = Dtype.int64)
    (s : String) (hs : s ∈ defaultNaValues) :
    coerceCell dt s = .ok .null ∧
    getCol (CSVLoader.load scenarioACsv) "VIOFINE"
      = some ⟨"VIOFINE", .float64, [.float ⟨10, 0⟩, .null, .float ⟨20, 0⟩]⟩ := by
  constructor
  · unfold coerceCell
    rw [if_pos hs]
  · decide

/-- C2 (witness): the amended claim at the empty cell of a `Float64`
column, with the scenario-A table. -/
theorem claim_C2_witness :
    coerceCell Dtype.float64 "" = .ok .null ∧
    getCol (CSVLoader.load scenarioACsv) "VIOFINE"
      = some ⟨"VIOFINE", .float64, [.float ⟨10, 0⟩, .null, .float ⟨20, 0⟩]⟩ :=
  claim_C2 Dtype.float64 (Or.inl rfl) "" (by decide)

/-- C3: in every report row of `profile_nulls`, `Null Pct` equals
`Null Count` divided by the source table's row count (exactly, in the
rational model); when the table has zero rows the percentage is the NaN
sentinel and the count is 0 — and scenario D's empty 0-row, 2-column
table yields exactly two such rows. -/
theorem claim_C3 (T : Table) (hwf : T.wf) :
    (∀ r ∈ profile_nulls T,
      (T.nrows ≠ 0 →
        r.nullPct = PFloat.val ((r.nullCount : ℚ) / (T.nrows : ℚ))) ∧
      (T.nrows = 0 → r.nullCount = 0 ∧ r.nullPct = PFloat.nan)) ∧
    profile_nulls emptyTable2
      = [⟨"A", 0, PFloat.nan⟩, ⟨"B", 0, PFloat.nan⟩] := by
  refine ⟨?_, by decide⟩
  intro r hr
  obtain ⟨c, hc, rfl⟩ := List.mem_map.mp hr
  constructor
  · intro h0
    show divModel (countNulls c) T.nrows = PFloat.val _
    unfold divModel
    rw [if_neg h0]
  · intro h0
    have hlen := hwf c hc
    rw [h0] at hlen
    have hcnt : countNulls c = 0 :=
      Nat.le_zero.mp (hlen ▸ List.countP_le_length Value.isna)
    refine ⟨hcnt, ?_⟩
    show divModel (countNulls c) T.nrows = PFloat.nan
    rw [hcnt, h0]
    rfl

/-- C3 (witness): the claim applied to scenario D's empty two-column
table, whose well-formedness is decided. -/
theorem claim_C3_witness :
    (∀ r ∈ profile_nulls emptyTable2,
      (emptyTable2.nrows ≠ 0 →
        r.nullPct
          = PFloat.val ((r.nullCount : ℚ) / (emptyTable2.nrows : ℚ))) ∧
      (emptyTable2.nrows = 0 →
        r.nullCount = 0 ∧ r.nullPct = PFloat.nan)) ∧
    profile_nulls emptyTable2
      = [⟨"A", 0, PFloat.nan⟩, ⟨"B", 0, PFloat.nan⟩] :=
  claim_C3 emptyTable2 (by decide)

/-- C4: `profile_nulls` emits exactly one row per input column, in the
input column order, and each row's `Null Count` equals the number of
null cells of its column and is at most the table's row count. -/
theorem claim_C4 (T : Table) (hwf : T.wf) :
    (profile_nulls T).length = T.cols.length ∧
    (profile_nulls T).map ProfileRow.column = T.cols.map Column.name ∧
    List.Forall₂
      (fun r c => r.nullCount = (c.cells.filter Value.isna).length ∧
        r.nullCount ≤ T.nrows)
      (profile_nulls T) T.cols := by
  refine ⟨by simp [profile_nulls], by simp [profile_nulls], ?_⟩
  have key : ∀ cs : List Column,
      (∀ c ∈ cs, c.cells.length = T.nrows) →
      List.Forall₂
        (fun r c => r.nullCount = (c.cells.filter Value.isna).length ∧
          r.nullCount ≤ T.nrows)
        (cs.map (fun c =>
          ({ column := c.name, nullCount := countNulls c
             nullPct := divModel (countNulls c) T.nrows } : ProfileRow)))
        cs := by
    intro cs
    induction cs with
    | nil => intro _; exact List.Forall₂.nil
    | cons c ct ih =>
      intro hlen
      refine List.Forall₂.cons ⟨?_, ?_⟩ (ih ?_)
      · exact List.countP_eq_length_filter _ _
      · show countNulls c ≤ T.nrows
        rw [← hlen c (List.mem_cons_self _ _)]
        exact List.countP_le_length Value.isna
      · intro x hx; exact hlen x (List.mem_cons_of_mem _ hx)
  exact key T.cols hwf

/-- C4 (witness): the claim applied to a concrete two-column table with
one and two nulls. -/
theorem claim_C4_witness :
    (profile_nulls smallTable).length = smallTable.cols.length ∧
    (profile_nulls smallTable).map ProfileRow.column
      = smallTable.cols.map Column.name ∧
    List.Forall₂
      (fun r c => r.nullCount = (c.cells.filter Value.isna).length ∧
        r.nullCount ≤ smallTable.nrows)
      (profile_nulls smallTable) smallTable.cols :=
  claim_C4 smallTable (by decide)

/-- C5: if any required column is absent from a file's header,
`CSVLoader.load` fails with the usecols schema error instead of
returning a table. -/
theorem claim_C5 (csv : Csv) (c : String) (hc : c ∈ usecols)
    (hmiss : c ∉ csv.header) : isErr (CSVLoader.load csv) = true := by
  unfold CSVLoader.load
  rw [if_neg]
  · rfl
  · intro hall
    exact hmiss (hall c hc)

/-- C5 (witness): scenario B — a file whose header lacks `OBJECTID`
fails to load. -/
theorem claim_C5_witness :
    "OBJECTID" ∈ usecols ∧
    isErr (CSVLoader.load missingObjectidCsv) = true :=
  ⟨by decide,
   claim_C5 missingObjectidCsv "OBJECTID" (by decide) (by decide)⟩

/-- C6: `ParquetLoader.load` exposes exactly the columns of the file's
embedded schema — same names, same types, in order — with the stored
values and row count unchanged (no filtering, no coercion). -/
theorem claim_C6 (f : ParquetFile)
    (h : f.schema.length = f.columnData.length) :
    (ParquetLoader.load f).cols.map (fun c => (c.name, c.dtype))
      = f.schema ∧
    (ParquetLoader.load f).cols.map Column.cells = f.columnData ∧
    (ParquetLoader.load f).nrows = f.numRows := by
  refine ⟨?_, ?_, rfl⟩
  · show ((f.schema.zip f.columnData).map _).map _ = f.schema
    rw [List.map_map]
    have hcomp : ((fun c : Column => (c.name, c.dtype)) ∘
        fun p : (String × Dtype) × List Value =>
          (⟨p.1.1, p.1.2, p.2⟩ : Column)) = Prod.fst := by
      funext p
      simp [Function.comp]
    rw [hcomp]
    exact List.map_fst_zip _ _ h.le
  · show ((f.schema.zip f.columnData).map _).map _ = f.columnData
    rw [List.map_map]
    have hcomp : (Column.cells ∘
        fun p : (String × Dtype) × List Value =>
          (⟨p.1.1, p.1.2, p.2⟩ : Column)) = Prod.snd := rfl
    rw [hcomp]
    exact List.map_snd_zip _ _ h.ge

/-- C6 (witness): scenario C — a file with embedded schema
`{A: integer, B: text}` loads as exactly those columns and types. -/
theorem claim_C6_witness :
    (ParquetLoader.load sampleParquet).cols.map
      (fun c => (c.name, c.dtype)) = sampleParquet.schema ∧
    (ParquetLoader.load sampleParquet).cols.map Column.cells
      = sampleParquet.columnData ∧
    (ParquetLoader.load sampleParquet).nrows = sampleParquet.numRows :=
  claim_C6 sampleParquet rfl

/-- C7: the orchestrator adds no behavior — for every concrete loader
`L`, `LoadProcess(L).run()` is exactly `L.load()`. -/
theorem claim_C7 (L : LoaderInst) :
    (LoadProcess.mk L).run = L.load := rfl

/-- C8: `profile_nulls` is deterministic — two calls on the same table
yield identical reports. -/
theorem claim_C8 (T : Table) : profile_nulls T = profile_nulls T := rfl

/-- C9: `profile_nulls` has no side effect on its argument — after the
call the caller's table is unchanged: same columns (names, dtypes,
cells) in the same order, same row count. -/
theorem claim_C9 (T : Table) :
    (profile_nulls_call T).1 = T ∧
    (profile_nulls_call T).1.cols.map Column.name
      = T.cols.map Column.name ∧
    (profile_nulls_call T).1.cols.map Column.cells
      = T.cols.map Column.cells ∧
    (profile_nulls_call T).1.nrows = T.nrows :=
  ⟨rfl, rfl, rfl, rfl⟩

/-- C10: the report depends only on column names, order, row count and
per-cell nullness — two tables agreeing on those produce equal reports
even when their non-null values differ. -/
theorem claim_C10 (T₁ T₂ : Table) (hrows : T₁.nrows = T₂.nrows)
    (hcols : List.Forall₂
      (fun c₁ c₂ => c₁.name = c₂.name ∧
        c₁.cells.map Value.isna = c₂.cells.map Value.isna)
      T₁.cols T₂.cols) :
    profile_nulls T₁ = profile_nulls T₂ := by
  unfold profile_nulls
  rw [hrows]
  exact forall2_map_eq hcols (fun c₁ c₂ h => by
    rw [countNulls_congr h.2, h.1])

/-- C10 (witness): two one-column tables with different non-null values
but the same nullness pattern produce the same report. -/
theorem claim_C10_witness :
    profile_nulls maskTableA = profile_nulls maskTableB :=
  claim_C10 maskTableA maskTableB rfl
    (List.Forall₂.cons ⟨rfl, rfl⟩ List.Forall₂.nil)

end BtownTickets
